import Mathlib

/-!
Shallow embedding of the minimal X11 client in `src/main.c`.

Machine integers are modelled as `Nat`; 32-bit wraparound is written
explicitly as `% 2^32` where the C code can overflow (the resource-id
counter).  Each request the client sends is modelled as the list of
32-bit words it writes to the socket (each word is 4 bytes on the wire);
the handshake, which is written byte-wise, is modelled as a list of bytes.
-/

-- X11 protocol constants (the `enum` at the top of main.c).

def X11_DEFAULT_BORDER : Nat := 0

def X11_DEFAULT_GROUP : Nat := 0

def X11_EXPOSURES_NOT_ALLOWED : Nat := 0

def X11_GC_GRAPHICS_EXPOSURES : Nat := 1 <<< 16

def X11_OPCODE_CREATE_WINDOW : Nat := 1

def X11_OPCODE_MAP_WINDOW : Nat := 8

def X11_OPCODE_CREATE_GC : Nat := 16

def X11_CW_BACK_PIXEL : Nat := 1 <<< 1

def X11_CW_EVENT_MASK : Nat := 1 <<< 11

def X11_EVENT_MASK_KEY_PRESS : Nat := 1

def X11_EVENT_MASK_POINTER_MOTION : Nat := 1 <<< 6

-- Packed protocol records, one Lean structure per C struct.

/-- `connection_request_t`: the fixed handshake header.  Field `order` is a
byte, `major_version` through `pad2` are 16-bit fields. -/
structure connection_request_t where
  order : Nat
  pad1 : Nat
  major_version : Nat
  minor_version : Nat
  auth_proto_name_len : Nat
  auth_proto_data_len : Nat
  pad2 : Nat
deriving Inhabited

/-- `screen_t`: one screen descriptor from the connection reply. -/
structure screen_t where
  root_id : Nat
  colormap : Nat
  white : Nat
  black : Nat
  input_mask : Nat
  width : Nat
  height : Nat
  width_mm : Nat
  height_mm : Nat
  maps_min : Nat
  maps_max : Nat
  root_visual_id : Nat
  backing_store : Nat
  save_unders : Nat
  depth : Nat
  allowed_depths_len : Nat
deriving Inhabited

/-- `pixmap_format_t`: one pixel-format descriptor (8 bytes on the wire:
three one-byte fields plus `uint8_t pad[5]`). -/
structure pixmap_format_t where
  depth : Nat
  bpp : Nat
  scanline_pad : Nat
  pad : List Nat
deriving Inhabited

/-- `connection_reply_success_body_t`: the fixed prefix of the success-reply
body, followed by the flexible `vendor_string`. -/
structure connection_reply_success_body_t where
  release : Nat
  id_base : Nat
  id_mask : Nat
  motion_buffer_size : Nat
  vendor_len : Nat
  request_max : Nat
  num_screens : Nat
  num_pixmap_formats : Nat
  image_byte_order : Nat
  bitmap_bit_order : Nat
  scanline_unit : Nat
  scanline_pad : Nat
  keycode_min : Nat
  keycode_max : Nat
  pad : Nat
  vendor_string : List Nat
deriving Inhabited

/-- `connection_reply_header_t`: the 8-byte reply header. -/
structure connection_reply_header_t where
  success : Nat
  pad : Nat
  major_version : Nat
  minor_version : Nat
  len : Nat
deriving Inhabited

/-- `visual_t`: declared in main.c but never consumed by the client logic. -/
structure visual_t where
  group : Nat
  bits : Nat
  colormap_entries : Nat
  mask_red : Nat
  mask_green : Nat
  mask_blue : Nat
  pad : Nat
deriving Inhabited

/-- `state_t`: the session state threaded through the program.  The two
pointer fields `pixmap_formats` and `screens` (views into the reply body)
are modelled as the lists of records they point at. -/
structure state_t where
  socket_fd : Int
  connection_reply_header : connection_reply_header_t
  connection_reply_success_body : connection_reply_success_body_t
  pixmap_formats : List pixmap_format_t
  screens : List screen_t
  next_resource_id : Nat
  graphics_context_id : Nat
  window_id : Nat
deriving Inhabited

-- Handshake serialization (the three `fatal_write` calls in `x11_init`).

/-- Little-endian encoding of a 16-bit field as two bytes. -/
def le16 (n : Nat) : List Nat := [n % 256, n / 256 % 256]

/-- The wire bytes of a packed `connection_request_t` (12 bytes). -/
def connection_request_t.bytes (r : connection_request_t) : List Nat :=
  [r.order % 256, r.pad1 % 256] ++ le16 r.major_version ++ le16 r.minor_version ++
    le16 r.auth_proto_name_len ++ le16 r.auth_proto_data_len ++ le16 r.pad2

/-- The request built in `x11_init`: order byte `l` (108), version 11.0,
auth-name length 18, auth-data length 16, all pad fields zero. -/
def x11_connection_request : connection_request_t :=
  { order := 108, pad1 := 0, major_version := 11, minor_version := 0,
    auth_proto_name_len := 18, auth_proto_data_len := 16, pad2 := 0 }

/-- The 20 bytes `"MIT-MAGIC-COOKIE-1\0\0"` written by `x11_init`
(the C string literal including its terminator plus one more pad byte). -/
def mit_magic_cookie_bytes : List Nat :=
  "MIT-MAGIC-COOKIE-1".data.map Char.toNat ++ [0, 0]

/-- All handshake bytes `x11_init` sends, as a function of the bytes actually
read from the credential file: the 12-byte header, the 20-byte auth name,
then `xauth_cookie + xauth_len - 16`, i.e. the last 16 bytes read. -/
def handshake_bytes (xauth_cookie : List Nat) : List Nat :=
  x11_connection_request.bytes ++ mit_magic_cookie_bytes ++
    xauth_cookie.drop (xauth_cookie.length - 16)

-- Reply-body layout (the pointer arithmetic at the end of `x11_init`).

/-- Byte sizes of the fixed fields of `connection_reply_success_body_t`, in
declaration order: release, id_base, id_mask, motion_buffer_size (4 bytes
each), vendor_len, request_max (2 bytes each), num_screens through
keycode_max (1 byte each), pad (4 bytes). -/
def connection_reply_success_body_field_sizes : List Nat :=
  [4, 4, 4, 4, 2, 2, 1, 1, 1, 1, 1, 1, 1, 1, 4]

/-- Byte offset of the flexible `vendor_string` member, i.e. the size of the
fixed-size prefix of the packed struct. -/
def vendor_string_offset : Nat := connection_reply_success_body_field_sizes.sum

/-- `sizeof(pixmap_format_t)`: three one-byte fields plus `uint8_t pad[5]`. -/
def sizeof_pixmap_format_t : Nat := 1 + 1 + 1 + 5

/-- Byte offset, inside the reply body, of the pixel-format array:
`state->pixmap_formats = (pixmap_format_t *)(body->vendor_string + body->vendor_len)`. -/
def pixmap_formats_offset (vendor_len : Nat) : Nat :=
  vendor_string_offset + vendor_len

/-- Byte offset, inside the reply body, of the screen array:
`state->screens = (screen_t *)(state->pixmap_formats + body->num_pixmap_formats)`,
pointer arithmetic in units of `sizeof(pixmap_format_t)`. -/
def screens_offset (vendor_len num_pixmap_formats : Nat) : Nat :=
  pixmap_formats_offset vendor_len + num_pixmap_formats * sizeof_pixmap_format_t

-- Transport primitives (`fatal_write` / `fatal_read`).

/-- The effect of `FATAL_ERROR`: one diagnostic line on stderr and
`exit(-1)`. -/
structure fatal_exit where
  message : String
  exit_code : Int
deriving DecidableEq

/-- `fatal_write`: the underlying `write` is modelled by the byte count it
reports; any mismatch with the requested count is fatal. -/
def fatal_write (count reported : Int) : Except fatal_exit Unit :=
  if reported = count then Except.ok () else Except.error ⟨"Failed to write.", -1⟩

/-- `fatal_read`: same shape as `fatal_write`, over `recvfrom`. -/
def fatal_read (count reported : Int) : Except fatal_exit Unit :=
  if reported = count then Except.ok () else Except.error ⟨"Failed to read.", -1⟩

/-- A sequence of writes, each given as (requested count, reported count),
performed in order through `fatal_write`.  Returns how many transfers
completed and whether the process exited fatally; once a transfer fails
nothing further is attempted. -/
def run_transfers : List (Int × Int) → Nat × Option fatal_exit
  | [] => (0, none)
  | (count, reported) :: rest =>
    match fatal_write count reported with
    | Except.ok _ => ((run_transfers rest).1 + 1, (run_transfers rest).2)
    | Except.error e => (0, some e)

-- Resource-id allocation and request builders.

/-- `generate_id`: returns `state->next_resource_id++` (32-bit increment). -/
def generate_id (s : state_t) : Nat × state_t :=
  (s.next_resource_id,
   { s with next_resource_id := (s.next_resource_id + 1) % 2 ^ 32 })

/-- `n` consecutive calls to `generate_id`, collecting the returned ids. -/
def generate_ids (s : state_t) : Nat → List Nat × state_t
  | 0 => ([], s)
  | n + 1 =>
    let p := generate_id s
    let q := generate_ids p.2 n
    (p.1 :: q.1, q.2)

/-- The loop body of `popcnt`; `fuel` bounds the number of iterations and is
always sufficient because the value strictly decreases each iteration. -/
def popcnt_loop : Nat → Nat → Nat
  | _, 0 => 0
  | 0, _ => 0
  | fuel + 1, value => (value &&& 1) + popcnt_loop fuel (value >>> 1)

/-- `popcnt`: `while (value) { count += value & 1; value >>= 1; }`. -/
def popcnt (value : Nat) : Nat := popcnt_loop value value

/-- `init_gc`: allocates the graphics-context id and builds the opcode-16
request; `fatal_write` then sends `len * 4` bytes, i.e. exactly the words
of the returned list. -/
def init_gc (s : state_t) (value_mask : Nat) (value_list : List Nat) :
    state_t × List Nat :=
  let g := generate_id s
  let s2 := { g.2 with graphics_context_id := g.1 }
  let flag_count := popcnt value_mask
  let len := 4 + flag_count
  (s2,
   [X11_OPCODE_CREATE_GC ||| (len <<< 16),
    s2.graphics_context_id,
    s2.screens.headI.root_id,
    value_mask] ++ value_list.take flag_count)

/-- `init_window`: allocates the window id and builds the opcode-1 request;
`fatal_write` then sends `len * 4` bytes, i.e. exactly the returned words. -/
def init_window (s : state_t) (x y w h window_parent visual value_mask : Nat)
    (value_list : List Nat) : state_t × List Nat :=
  let g := generate_id s
  let s2 := { g.2 with window_id := g.1 }
  let flag_count := popcnt value_mask
  let len := 8 + flag_count
  (s2,
   [X11_OPCODE_CREATE_WINDOW ||| (len <<< 16),
    s2.window_id,
    window_parent,
    x ||| (y <<< 16),
    w ||| (h <<< 16),
    (X11_DEFAULT_BORDER <<< 16) ||| X11_DEFAULT_GROUP,
    visual,
    value_mask] ++ value_list.take flag_count)

/-- `map_window`: the fixed 8-byte opcode-8 request. -/
def map_window (s : state_t) : state_t × List Nat :=
  let len := 2
  (s, [X11_OPCODE_MAP_WINDOW ||| (len <<< 16), s.window_id])

/-- The tail of `main` after `x11_init` returns: the three requests sent
before the idle loop, in order, and the final state.  Nothing else is
written to the socket before `while (1) sleep(1)`. -/
def main_after_handshake (s : state_t) : state_t × List (List Nat) :=
  let gc := init_gc s X11_GC_GRAPHICS_EXPOSURES [X11_EXPOSURES_NOT_ALLOWED]
  let win := init_window gc.1 0 0 320 240
    gc.1.screens.headI.root_id gc.1.screens.headI.root_visual_id
    X11_CW_BACK_PIXEL [0xff00ff]
  let m := map_window win.1
  (m.1, [gc.2, win.2, m.2])

-- Concrete states used to instantiate the theorems below.

/-- A screen like the one in the spec's mock-server scenario:
root window id 100, root visual id 200. -/
def mock_screen : screen_t :=
  { root_id := 100, colormap := 1, white := 0xffffff, black := 0,
    input_mask := 0, width := 1920, height := 1080, width_mm := 500,
    height_mm := 280, maps_min := 1, maps_max := 1, root_visual_id := 200,
    backing_store := 0, save_unders := 0, depth := 24,
    allowed_depths_len := 1 }

/-- A session state as produced by a successful `x11_init` against the mock
server: one screen, no pixel formats, id base 1000. -/
def mock_state : state_t :=
  { socket_fd := 3,
    connection_reply_header :=
      { success := 1, pad := 0, major_version := 11, minor_version := 0, len := 8 },
    connection_reply_success_body := default,
    pixmap_formats := [],
    screens := [mock_screen],
    next_resource_id := 1000,
    graphics_context_id := 0,
    window_id := 0 }

/-- Like `mock_state` but with the resource-id counter at the top of the
32-bit range, where the next increment wraps. -/
def wrap_state : state_t :=
  { mock_state with next_resource_id := 2 ^ 32 - 1 }

-- Helper lemmas.

lemma popcnt_loop_le (fuel : Nat) :
    ∀ k v : Nat, v < 2 ^ k → popcnt_loop fuel v ≤ k := by
  induction fuel with
  | zero =>
    intro k v _
    cases v <;> simp [popcnt_loop]
  | succ fuel ih =>
    intro k v hv
    match v with
    | 0 => simp [popcnt_loop]
    | w + 1 =>
      match k with
      | 0 => omega
      | k + 1 =>
        have hpow : 2 ^ (k + 1) = 2 ^ k * 2 := pow_succ 2 k
        have hdiv : (w + 1) >>> 1 < 2 ^ k := by
          rw [Nat.shiftRight_eq_div_pow, pow_one]
          omega
        have hand : (w + 1) &&& 1 ≤ 1 := by
          rw [Nat.and_one_is_mod]
          omega
        have := ih k ((w + 1) >>> 1) hdiv
        simp only [popcnt_loop]
        omega

lemma popcnt_le_32 {v : Nat} (hv : v < 2 ^ 32) : popcnt v ≤ 32 :=
  popcnt_loop_le v 32 v hv

lemma lor16_shift : ∀ n < 41, ((16 : Nat) ||| (n <<< 16)) = 16 + n * 2 ^ 16 := by
  decide

lemma lor1_shift : ∀ n < 41, ((1 : Nat) ||| (n <<< 16)) = 1 + n * 2 ^ 16 := by
  decide

-- Claim theorems.

/-- C3: for every success-reply body with vendor-string length `L`,
pixel-format count `P` and screen count `S`, the pixel-format array is
located exactly `L` bytes past the end of the body's fixed-size prefix
(which is 32 bytes), and the screen array exactly `P * 8` bytes past the
pixel-format array start. -/
theorem reply_array_offsets (L P _S : Nat) :
    vendor_string_offset = 32 ∧
    sizeof_pixmap_format_t = 8 ∧
    pixmap_formats_offset L = vendor_string_offset + L ∧
    screens_offset L P = pixmap_formats_offset L + P * 8 := by
  refine ⟨by decide, by decide, rfl, ?_⟩
  simp [screens_offset, sizeof_pixmap_format_t]

/-- C6: for every session state with current window id `W`, `map_window`
sends exactly 8 bytes: word 0 is `0x00020008` (opcode 8 in the low byte,
length 2 in the high 16 bits) and word 1 is `W`. -/
theorem map_window_encoding (s : state_t) :
    (map_window s).2 = [0x00020008, s.window_id] ∧
    4 * (map_window s).2.length = 8 := by
  exact ⟨rfl, rfl⟩

/-- C10 (amended): `init_gc` changes only the graphics-context-id field and
the next-resource-id field, `init_window` changes only the window-id field
and the next-resource-id field, and `map_window` changes nothing; the
next-resource-id is incremented by one modulo `2^32` (so by exactly one
except when the 32-bit counter wraps). -/
theorem state_frame_effects (s : state_t) (M : Nat) (vl : List Nat)
    (x y w h p v : Nat) :
    ((init_gc s M vl).1.socket_fd = s.socket_fd ∧
     (init_gc s M vl).1.connection_reply_header = s.connection_reply_header ∧
     (init_gc s M vl).1.connection_reply_success_body =
       s.connection_reply_success_body ∧
     (init_gc s M vl).1.pixmap_formats = s.pixmap_formats ∧
     (init_gc s M vl).1.screens = s.screens ∧
     (init_gc s M vl).1.window_id = s.window_id ∧
     (init_gc s M vl).1.graphics_context_id = s.next_resource_id ∧
     (init_gc s M vl).1.next_resource_id = (s.next_resource_id + 1) % 2 ^ 32) ∧
    ((init_window s x y w h p v M vl).1.socket_fd = s.socket_fd ∧
     (init_window s x y w h p v M vl).1.connection_reply_header =
       s.connection_reply_header ∧
     (init_window s x y w h p v M vl).1.connection_reply_success_body =
       s.connection_reply_success_body ∧
     (init_window s x y w h p v M vl).1.pixmap_formats = s.pixmap_formats ∧
     (init_window s x y w h p v M vl).1.screens = s.screens ∧
     (init_window s x y w h p v M vl).1.graphics_context_id =
       s.graphics_context_id ∧
     (init_window s x y w h p v M vl).1.window_id = s.next_resource_id ∧
     (init_window s x y w h p v M vl).1.next_resource_id =
       (s.next_resource_id + 1) % 2 ^ 32) ∧
    (map_window s).1 = s :=
  ⟨⟨rfl, rfl, rfl, rfl, rfl, rfl, rfl, rfl⟩,
   ⟨rfl, rfl, rfl, rfl, rfl, rfl, rfl, rfl⟩, rfl⟩

/-- C10 counterexample: with the counter at `2^32 - 1`, `init_gc` does not
increment the next-resource-id field by exactly one — the 32-bit counter
wraps to 0. -/
theorem state_frame_wrap_cex :
    (init_gc wrap_state 0 []).1.next_resource_id = 0 ∧
    (init_gc wrap_state 0 []).1.next_resource_id ≠
      wrap_state.next_resource_id + 1 := by
  decide

/-- C2 (amended): for every credential-file read yielding at least 16 bytes,
the bootstrap emits exactly 48 handshake bytes: the 12-byte header
(order byte `l`, one zero pad byte, 16-bit little-endian fields 11, 0, 18,
16, and two zero pad bytes), then "MIT-MAGIC-COOKIE-1" followed by two null
bytes, then the final 16 bytes actually read from the credential file. -/
theorem handshake_bytes_encoding (xauth : List Nat) (hlen : 16 ≤ xauth.length) :
    handshake_bytes xauth =
      [108, 0, 11, 0, 0, 0, 18, 0, 16, 0, 0, 0,
       77, 73, 84, 45, 77, 65, 71, 73, 67, 45, 67, 79, 79, 75, 73, 69, 45, 49,
       0, 0] ++ xauth.drop (xauth.length - 16) ∧
    (handshake_bytes xauth).length = 48 := by
  have hpre : x11_connection_request.bytes ++ mit_magic_cookie_bytes =
      [108, 0, 11, 0, 0, 0, 18, 0, 16, 0, 0, 0,
       77, 73, 84, 45, 77, 65, 71, 73, 67, 45, 67, 79, 79, 75, 73, 69, 45, 49,
       0, 0] := by decide
  constructor
  · rw [handshake_bytes, hpre]
  · rw [handshake_bytes, hpre]
    simp [List.length_drop]
    omega

/-- C2 witness: the amended theorem applied to a concrete 20-byte credential
read. -/
theorem handshake_bytes_encoding_witness :
    16 ≤ (List.replicate 20 (7 : Nat)).length ∧
    (handshake_bytes (List.replicate 20 7) =
      [108, 0, 11, 0, 0, 0, 18, 0, 16, 0, 0, 0,
       77, 73, 84, 45, 77, 65, 71, 73, 67, 45, 67, 79, 79, 75, 73, 69, 45, 49,
       0, 0] ++ (List.replicate 20 (7 : Nat)).drop
        ((List.replicate 20 (7 : Nat)).length - 16) ∧
     (handshake_bytes (List.replicate 20 7)).length = 48) :=
  ⟨by decide, handshake_bytes_encoding (List.replicate 20 7) (by decide)⟩

/-- C2 counterexample: the handshake is 48 bytes, not 44 as claimed — the
fixed header is 12 bytes (1 + 1 + five 16-bit fields), not 8. -/
theorem handshake_bytes_length_cex :
    (handshake_bytes (List.replicate 16 0)).length = 48 ∧
    (handshake_bytes (List.replicate 16 0)).length ≠ 44 := by
  decide

/-- C4: for every attribute mask `M` and value list of length `popcnt M`,
`init_gc` sends exactly `(4 + popcnt M) * 4` bytes: word 0 encodes opcode 16
in its low byte and the length `4 + popcnt M` in its high 16 bits, word 1 is
the newly allocated graphics-context id, word 2 is the first screen's root
window id, word 3 is `M`, and words 4 onward are the value-list entries in
order. -/
theorem init_gc_request_encoding (s : state_t) (M : Nat) (vl : List Nat)
    (scr : screen_t) (rest : List screen_t)
    (hscr : s.screens = scr :: rest) (hM : M < 2 ^ 32)
    (hvl : vl.length = popcnt M) :
    (init_gc s M vl).2 =
      (16 + (4 + popcnt M) * 2 ^ 16) ::
        (init_gc s M vl).1.graphics_context_id :: scr.root_id :: M :: vl ∧
    (init_gc s M vl).1.graphics_context_id = s.next_resource_id ∧
    4 * (init_gc s M vl).2.length = (4 + popcnt M) * 4 := by
  have hpc : popcnt M ≤ 32 := popcnt_le_32 hM
  have htake : vl.take (popcnt M) = vl := by
    rw [← hvl]
    exact List.take_length vl
  have h2 : (init_gc s M vl).2 =
      ((16 : Nat) ||| ((4 + popcnt M) <<< 16)) :: s.next_resource_id ::
        s.screens.headI.root_id :: M :: vl.take (popcnt M) := rfl
  refine ⟨?_, rfl, ?_⟩
  · rw [h2, hscr, htake, lor16_shift (4 + popcnt M) (by omega)]
    rfl
  · rw [h2, htake]
    simp [hvl]
    omega

/-- C4 witness: the general theorem applied at the driver's actual call,
mask = bit 16, value list `[0]`: 20 bytes with word 4 equal to 0. -/
theorem init_gc_request_encoding_witness :
    mock_state.screens = mock_screen :: [] ∧ (65536 : Nat) < 2 ^ 32 ∧
    ([0] : List Nat).length = popcnt 65536 ∧
    ((init_gc mock_state 65536 [0]).2 =
      (16 + (4 + popcnt 65536) * 2 ^ 16) ::
        (init_gc mock_state 65536 [0]).1.graphics_context_id ::
          mock_screen.root_id :: 65536 :: [0] ∧
     (init_gc mock_state 65536 [0]).1.graphics_context_id =
       mock_state.next_resource_id ∧
     4 * (init_gc mock_state 65536 [0]).2.length = (4 + popcnt 65536) * 4) :=
  ⟨rfl, by decide, by decide,
   init_gc_request_encoding mock_state 65536 [0] mock_screen [] rfl
     (by decide) (by decide)⟩

/-- C5: for every call to `init_window` with 16-bit geometry, parent `p`,
visual `v`, mask `M` and a value list of length `popcnt M`, it sends exactly
`(8 + popcnt M) * 4` bytes: word 0 encodes opcode 1 and the length in its
high 16 bits, word 1 is the newly allocated window id, word 2 is `p`,
word 3 is `x ||| (y <<< 16)`, word 4 is `w ||| (h <<< 16)`, word 5 is 0,
word 6 is `v`, word 7 is `M`, and words 8 onward are the value-list entries
in order. -/
theorem init_window_request_encoding (s : state_t) (x y w h p v M : Nat)
    (vl : List Nat) (_hx : x < 2 ^ 16) (_hy : y < 2 ^ 16) (_hw : w < 2 ^ 16)
    (_hh : h < 2 ^ 16) (hM : M < 2 ^ 32) (hvl : vl.length = popcnt M) :
    (init_window s x y w h p v M vl).2 =
      (1 + (8 + popcnt M) * 2 ^ 16) ::
        (init_window s x y w h p v M vl).1.window_id :: p ::
          (x ||| (y <<< 16)) :: (w ||| (h <<< 16)) :: 0 :: v :: M :: vl ∧
    (init_window s x y w h p v M vl).1.window_id = s.next_resource_id ∧
    4 * (init_window s x y w h p v M vl).2.length = (8 + popcnt M) * 4 := by
  have hpc : popcnt M ≤ 32 := popcnt_le_32 hM
  have htake : vl.take (popcnt M) = vl := by
    rw [← hvl]
    exact List.take_length vl
  have h2 : (init_window s x y w h p v M vl).2 =
      ((1 : Nat) ||| ((8 + popcnt M) <<< 16)) :: s.next_resource_id :: p ::
        (x ||| (y <<< 16)) :: (w ||| (h <<< 16)) :: 0 :: v :: M ::
          vl.take (popcnt M) := rfl
  refine ⟨?_, rfl, ?_⟩
  · rw [h2, htake, lor1_shift (8 + popcnt M) (by omega)]
    rfl
  · rw [h2, htake]
    simp [hvl]
    omega

/-- C5 witness: the general theorem at the driver's actual call:
x = 0, y = 0, w = 320, h = 240, mask = bit 1, value `[0xff00ff]`;
in particular word 4 is `320 ||| (240 <<< 16) = 0x00f00140` and 36 bytes
are sent. -/
theorem init_window_request_encoding_witness :
    (320 : Nat) < 2 ^ 16 ∧ (240 : Nat) < 2 ^ 16 ∧ (2 : Nat) < 2 ^ 32 ∧
    ([0xff00ff] : List Nat).length = popcnt 2 ∧
    (320 : Nat) ||| (240 <<< 16) = 0x00f00140 ∧
    ((init_window mock_state 0 0 320 240 100 200 2 [0xff00ff]).2 =
      (1 + (8 + popcnt 2) * 2 ^ 16) ::
        (init_window mock_state 0 0 320 240 100 200 2 [0xff00ff]).1.window_id ::
          100 :: ((0 : Nat) ||| (0 <<< 16)) :: ((320 : Nat) ||| (240 <<< 16)) ::
            0 :: 200 :: 2 :: [0xff00ff] ∧
     (init_window mock_state 0 0 320 240 100 200 2 [0xff00ff]).1.window_id =
       mock_state.next_resource_id ∧
     4 * (init_window mock_state 0 0 320 240 100 200 2 [0xff00ff]).2.length =
       (8 + popcnt 2) * 4) :=
  ⟨by decide, by decide, by decide, by decide, by decide,
   init_window_request_encoding mock_state 0 0 320 240 100 200 2 [0xff00ff]
     (by decide) (by decide) (by decide) (by decide) (by decide) (by decide)⟩

lemma generate_ids_spec :
    ∀ (N : Nat) (s : state_t) (B : Nat), s.next_resource_id = B →
      B + N ≤ 2 ^ 32 →
      (generate_ids s N).1 = (List.range N).map (fun i => B + i) := by
  intro N
  induction N with
  | zero =>
    intro s B _ _
    simp [generate_ids]
  | succ n ih =>
    intro s B hB hN
    have hp1 : (generate_id s).1 = B := hB
    have hs2 : (generate_id s).2.next_resource_id = (B + 1) % 2 ^ 32 := by
      simp [generate_id, hB]
    by_cases hw : B + 1 < 2 ^ 32
    · have hnext : (generate_id s).2.next_resource_id = B + 1 := by
        rw [hs2, Nat.mod_eq_of_lt hw]
      have ht := ih (generate_id s).2 (B + 1) hnext (by omega)
      have hfun : (fun i => B + 1 + i) = (fun i => B + i) ∘ Nat.succ :=
        funext fun i => by
          show B + 1 + i = B + (i + 1)
          omega
      simp only [generate_ids]
      rw [hp1, ht, List.range_succ_eq_map, List.map_cons, List.map_map, hfun]
      norm_num
    · have hn0 : n = 0 := by omega
      subst hn0
      simp only [generate_ids]
      rw [hp1]
      simp [List.range_succ, generate_ids]

/-- C7 (amended): with the counter seeded to `B`, `N` consecutive calls to
`generate_id` return exactly `B, B+1, ..., B+N-1` in order with no repeats,
provided `B + N ≤ 2^32` so the 32-bit counter does not wrap; each call
returns the counter's current value and then increments it modulo `2^32`. -/
theorem generate_ids_monotone (s : state_t) (B N : Nat)
    (hB : s.next_resource_id = B) (hN : B + N ≤ 2 ^ 32) :
    (generate_ids s N).1 = (List.range N).map (fun i => B + i) ∧
    (generate_ids s N).1.Nodup ∧
    (generate_id s).1 = s.next_resource_id ∧
    (generate_id s).2.next_resource_id = (s.next_resource_id + 1) % 2 ^ 32 := by
  have h := generate_ids_spec N s B hB hN
  refine ⟨h, ?_, rfl, rfl⟩
  rw [h]
  exact (List.nodup_range N).map (fun a b hab => by omega)

/-- C7 witness: three allocations from base 1000 give 1000, 1001, 1002. -/
theorem generate_ids_monotone_witness :
    mock_state.next_resource_id = 1000 ∧ 1000 + 3 ≤ 2 ^ 32 ∧
    ((generate_ids mock_state 3).1 =
      (List.range 3).map (fun i => 1000 + i) ∧
     (generate_ids mock_state 3).1.Nodup ∧
     (generate_id mock_state).1 = mock_state.next_resource_id ∧
     (generate_id mock_state).2.next_resource_id =
       (mock_state.next_resource_id + 1) % 2 ^ 32) :=
  ⟨rfl, by decide, generate_ids_monotone mock_state 1000 3 rfl (by decide)⟩

/-- C7 counterexample: seeded to `B = 2^32 - 1`, two calls return
`[2^32 - 1, 0]` — the second value is not `B + 1` — so the claim fails
without the no-wraparound proviso. -/
theorem generate_ids_wrap_cex :
    (generate_ids wrap_state 2).1 = [2 ^ 32 - 1, 0] ∧
    (generate_ids wrap_state 2).1 ≠
      (List.range 2).map (fun i => (2 ^ 32 - 1) + i) := by
  decide

lemma run_transfers_short :
    ∀ (pre : List (Int × Int)) (count reported : Int) (post : List (Int × Int)),
      (∀ q ∈ pre, q.2 = q.1) → reported ≠ count →
      run_transfers (pre ++ (count, reported) :: post) =
        (pre.length, some ⟨"Failed to write.", -1⟩) := by
  intro pre
  induction pre with
  | nil =>
    intro c r post _ hshort
    simp [run_transfers, fatal_write, hshort]
  | cons q rest ih =>
    intro c r post hpre hshort
    obtain ⟨q1, q2⟩ := q
    have hq : q2 = q1 := hpre (q1, q2) (by simp)
    subst hq
    have ih2 := ih c r post (fun x hx => hpre x (List.mem_cons_of_mem _ hx)) hshort
    simp [run_transfers, fatal_write, ih2]

/-- C8: whenever the underlying write moves a number of bytes different from
the requested count, the process prints one diagnostic line and exits with
non-zero status (`exit(-1)`), and no later transfer in the sequence is
attempted; `fatal_read` behaves the same way.  There is no retry loop. -/
theorem short_transfer_fatal (pre : List (Int × Int)) (count reported : Int)
    (post : List (Int × Int)) (hpre : ∀ q ∈ pre, q.2 = q.1)
    (hshort : reported ≠ count) :
    (run_transfers (pre ++ (count, reported) :: post)).1 = pre.length ∧
    (run_transfers (pre ++ (count, reported) :: post)).2 =
      some ⟨"Failed to write.", -1⟩ ∧
    (⟨"Failed to write.", -1⟩ : fatal_exit).exit_code ≠ 0 ∧
    (∀ c r : Int, r ≠ c →
      fatal_read c r = Except.error ⟨"Failed to read.", -1⟩) := by
  have h := run_transfers_short pre count reported post hpre hshort
  refine ⟨by rw [h], by rw [h], by decide, fun c r hcr => ?_⟩
  simp [fatal_read, hcr]

/-- C8 witness: a transport reporting 19 of 20 requested bytes on the second
write: one transfer completes, the process exits fatally, and the queued
third transfer is never attempted. -/
theorem short_transfer_fatal_witness :
    (∀ q ∈ [((8 : Int), (8 : Int))], q.2 = q.1) ∧ ((19 : Int) ≠ 20) ∧
    ((run_transfers ([(8, 8)] ++ ((20 : Int), (19 : Int)) :: [(16, 16)])).1 =
      [((8 : Int), (8 : Int))].length ∧
     (run_transfers ([(8, 8)] ++ ((20 : Int), (19 : Int)) :: [(16, 16)])).2 =
       some ⟨"Failed to write.", -1⟩ ∧
     (⟨"Failed to write.", -1⟩ : fatal_exit).exit_code ≠ 0 ∧
     (∀ c r : Int, r ≠ c →
       fatal_read c r = Except.error ⟨"Failed to read.", -1⟩)) :=
  ⟨by decide, by decide,
   short_transfer_fatal [(8, 8)] 20 19 [(16, 16)] (by decide) (by decide)⟩

/-- C9: for every 32-bit mask `M`, `popcnt M ≤ 32`, so given at least
`popcnt M` value-list entries the graphics-context request fills exactly
`4 + popcnt M ≤ 36` words of its 36-word buffer and the window request
fills exactly `8 + popcnt M ≤ 40` words of its 40-word buffer — every
store stays in bounds. -/
theorem request_buffers_in_bounds (M : Nat) (s : state_t) (vl : List Nat)
    (x y w h p v : Nat) (hM : M < 2 ^ 32) (hlen : popcnt M ≤ vl.length) :
    popcnt M ≤ 32 ∧
    (init_gc s M vl).2.length = 4 + popcnt M ∧ 4 + popcnt M ≤ 36 ∧
    (init_window s x y w h p v M vl).2.length = 8 + popcnt M ∧
    8 + popcnt M ≤ 40 := by
  have hpc := popcnt_le_32 hM
  have hgc : (init_gc s M vl).2.length = 4 + min (popcnt M) vl.length := by
    simp [init_gc]
    omega
  have hwin : (init_window s x y w h p v M vl).2.length =
      8 + min (popcnt M) vl.length := by
    simp [init_window]
    omega
  refine ⟨hpc, ?_, by omega, ?_, by omega⟩
  · rw [hgc]
    omega
  · rw [hwin]
    omega

/-- C9 witness: the all-ones 32-bit mask, whose popcount is exactly 32, with
a 32-entry value list: 36 of 36 and 40 of 40 words. -/
theorem request_buffers_in_bounds_witness :
    (2 ^ 32 - 1 : Nat) < 2 ^ 32 ∧
    popcnt (2 ^ 32 - 1) ≤ (List.replicate 32 (0 : Nat)).length ∧
    (popcnt (2 ^ 32 - 1) ≤ 32 ∧
     (init_gc mock_state (2 ^ 32 - 1) (List.replicate 32 0)).2.length =
       4 + popcnt (2 ^ 32 - 1) ∧ 4 + popcnt (2 ^ 32 - 1) ≤ 36 ∧
     (init_window mock_state 0 0 320 240 100 200 (2 ^ 32 - 1)
       (List.replicate 32 0)).2.length = 8 + popcnt (2 ^ 32 - 1) ∧
     8 + popcnt (2 ^ 32 - 1) ≤ 40) :=
  ⟨by decide, by decide,
   request_buffers_in_bounds (2 ^ 32 - 1) mock_state (List.replicate 32 0)
     0 0 320 240 100 200 (by decide) (by decide)⟩

/-- C1 (amended): against a server whose success reply carries one screen
(root `R`, visual `V`), zero pixel formats, and id base `B` with
`B + 1 < 2^32` (no counter wraparound), the driver allocates the
graphics-context id `B` and the window id `B + 1`, and sends after the
handshake exactly three requests, in order: a create-graphics-context
request on drawable `R`, a create-window request with parent `R` and visual
`V` at position (0,0), size 320x240, background pixel `0xff00ff`, then a
map-window request naming the allocated window id.  Nothing further is sent
before the idle loop. -/
theorem main_after_handshake_trace (s : state_t) (B R V : Nat)
    (scr : screen_t) (hscr : s.screens = [scr])
    (_hpf : s.pixmap_formats = []) (hR : scr.root_id = R)
    (hV : scr.root_visual_id = V) (hB : s.next_resource_id = B)
    (hwrap : B + 1 < 2 ^ 32) :
    (main_after_handshake s).1.graphics_context_id = B ∧
    (main_after_handshake s).1.window_id = B + 1 ∧
    (main_after_handshake s).2 =
      [[16 + 5 * 2 ^ 16, B, R, 2 ^ 16, 0],
       [1 + 9 * 2 ^ 16, B + 1, R, 0, 320 + 240 * 2 ^ 16, 0, V, 2, 0xff00ff],
       [8 + 2 * 2 ^ 16, B + 1]] := by
  subst hR hV hB
  have hmod : (s.next_resource_id + 1) % 2 ^ 32 = s.next_resource_id + 1 :=
    Nat.mod_eq_of_lt hwrap
  have htrace : (main_after_handshake s).2 =
      [[16 + 5 * 2 ^ 16, s.next_resource_id, s.screens.headI.root_id,
        2 ^ 16, 0],
       [1 + 9 * 2 ^ 16, (s.next_resource_id + 1) % 2 ^ 32,
        s.screens.headI.root_id, 0, 320 + 240 * 2 ^ 16, 0,
        s.screens.headI.root_visual_id, 2, 0xff00ff],
       [8 + 2 * 2 ^ 16, (s.next_resource_id + 1) % 2 ^ 32]] := rfl
  refine ⟨rfl, ?_, ?_⟩
  · show (s.next_resource_id + 1) % 2 ^ 32 = s.next_resource_id + 1
    exact hmod
  · rw [htrace, hscr, hmod]
    rfl

/-- C1 witness: the spec's mock-server scenario — id base 1000, one screen
with root 100 and visual 200, no pixel formats. -/
theorem main_after_handshake_trace_witness :
    mock_state.screens = [mock_screen] ∧ mock_state.pixmap_formats = [] ∧
    mock_screen.root_id = 100 ∧ mock_screen.root_visual_id = 200 ∧
    mock_state.next_resource_id = 1000 ∧ 1000 + 1 < 2 ^ 32 ∧
    ((main_after_handshake mock_state).1.graphics_context_id = 1000 ∧
     (main_after_handshake mock_state).1.window_id = 1000 + 1 ∧
     (main_after_handshake mock_state).2 =
       [[16 + 5 * 2 ^ 16, 1000, 100, 2 ^ 16, 0],
        [1 + 9 * 2 ^ 16, 1000 + 1, 100, 0, 320 + 240 * 2 ^ 16, 0, 200, 2,
         0xff00ff],
        [8 + 2 * 2 ^ 16, 1000 + 1]]) :=
  ⟨rfl, rfl, rfl, rfl, rfl, by decide,
   main_after_handshake_trace mock_state 1000 100 200 mock_screen rfl rfl rfl
     rfl rfl (by decide)⟩

/-- C1 counterexample: with the reply's id base at `2^32 - 1`, the driver's
window id is 0, not id base + 1 — the 32-bit resource counter wraps. -/
theorem main_after_handshake_wrap_cex :
    (main_after_handshake wrap_state).1.window_id = 0 ∧
    (main_after_handshake wrap_state).1.window_id ≠
      wrap_state.next_resource_id + 1 := by
  decide
